import Mathlib

/-!
Verification development for the lead-extraction backend
(`collector.py` and `server.py`).

The Python source is shallowly embedded: pure helper functions become Lean
functions on `String` / `List Char`; the browser page, the remote
verification service and the environment configuration are passed in as
explicit data (page models, oracles, parameters); generator loops become
fuel-bounded recursion with fuel large enough to cover every reachable
iteration.
-/

namespace Leads

/-! ## Number normalizer (`collector.norm_br_e164`) -/

/-- Embeds `re.sub(r"\D", "", s)`: keep only the decimal-digit characters. -/
def pyDigits (l : List Char) : List Char := l.filter Char.isDigit

/-- Digits of a string, as a string (`_digits` in `server.py`). -/
def digitsStr (s : String) : String := ⟨pyDigits s.data⟩

/-- Embeds `d.startswith("55")` for a digit list. -/
def startsWith55 : List Char → Bool
  | '5' :: '5' :: _ => true
  | _ => false

/-- Python `str.split(",")`: cut the character list at every comma. -/
def pySplitComma : List Char → List Char → List (List Char)
  | [], acc => [acc.reverse]
  | ',' :: rest, acc => acc.reverse :: pySplitComma rest []
  | c :: rest, acc => pySplitComma rest (c :: acc)

/-- Python `str.strip()`: drop whitespace from both ends. -/
def pyStrip (l : List Char) : List Char :=
  ((l.dropWhile Char.isWhitespace).reverse.dropWhile Char.isWhitespace).reverse

/-- Python `str.lower()` (ASCII case fold, all the compared literals are ASCII). -/
def pyLower (l : List Char) : List Char := l.map Char.toLower

/-- Modelled from the spec: the Brazilian numbering-plan validation done by the
external `phonenumbers` library (`is_possible_number` and `is_valid_number`),
which is not part of this repository.  The national significant number (after
the country code 55) must be a two-digit area code with no `0` digit followed
by a 9-digit mobile subscriber number starting with `9` or an 8-digit fixed
subscriber number starting with `2`–`5` ("length, mobile/fixed prefix
ranges"). -/
def nationalValid : List Char → Bool
  | a :: b :: c :: t =>
      if t.length = 8 then (a != '0') && (b != '0') && (c == '9')
      else if t.length = 7 then
        (a != '0') && (b != '0') && (c == '2' || c == '3' || c == '4' || c == '5')
      else false
  | _ => false

/-- Modelled from the spec: `phonenumbers.parse("+" + d)` followed by the
possible/valid checks and `format_number(·, E164)`.  Parsing recognizes the
country code 55, drops leading zeros of the national significant number, and
E.164 formatting prints `+`, the country code and the national number. -/
def phonelib_e164 (d : List Char) : Option String :=
  if startsWith55 d then
    if nationalValid ((d.drop 2).dropWhile (· == '0')) then
      some ⟨'+' :: '5' :: '5' :: ((d.drop 2).dropWhile (· == '0'))⟩
    else none
  else none

/-- Embeds `collector.norm_br_e164`: strip non-digits; if the digit string does not
start with the country prefix `55`, strip leading (trunk) zeros and prepend
`55`; then parse/validate/format through the phone library, returning `none`
on any failure (the `try/except` swallows parse exceptions). -/
def norm_br_e164 (raw : String) : Option String :=
  if pyDigits raw.data = [] then none
  else if startsWith55 (pyDigits raw.data) then phonelib_e164 (pyDigits raw.data)
  else phonelib_e164 ('5' :: '5' :: (pyDigits raw.data).dropWhile (· == '0'))

/-! ### Helper lemmas about the normalizer -/

theorem sublist_all {p : Char → Bool} {l₁ l₂ : List Char}
    (hs : List.Sublist l₁ l₂) (h : l₂.all p = true) : l₁.all p = true := by
  rw [List.all_eq_true] at h ⊢
  exact fun x hx => h x (hs.subset hx)

theorem pyDigits_all (l : List Char) : (pyDigits l).all Char.isDigit = true := by
  rw [List.all_eq_true]
  intro x hx
  exact List.of_mem_filter hx

theorem nationalValid_head {r : List Char} (h : nationalValid r = true) :
    ∃ a t, r = a :: t ∧ (a == '0') = false := by
  match r with
  | [] => simp [nationalValid] at h
  | [a] => simp [nationalValid] at h
  | [a, b] => simp [nationalValid] at h
  | a :: b :: c :: t =>
    refine ⟨a, b :: c :: t, rfl, ?_⟩
    by_contra hne
    have ha : a = '0' := by
      rcases Bool.eq_false_or_eq_true (a == '0') with h0 | h1
      · exact eq_of_beq h0
      · exact absurd h1 hne
    subst ha
    have hfalse : nationalValid ('0' :: b :: c :: t) = false := by
      simp [nationalValid]
    rw [hfalse] at h
    exact Bool.false_ne_true h

theorem phonelib_shape {d : List Char} {x : String}
    (h : phonelib_e164 d = some x) :
    ∃ rest, x = ⟨'+' :: '5' :: '5' :: rest⟩ ∧
      rest = (d.drop 2).dropWhile (· == '0') ∧
      nationalValid rest = true ∧ startsWith55 d = true := by
  unfold phonelib_e164 at h
  split at h
  · split at h
    · exact ⟨(d.drop 2).dropWhile (· == '0'), (Option.some_inj.mp h).symm, rfl, by
        assumption, by assumption⟩
    · exact absurd h (by simp)
  · exact absurd h (by simp)

theorem norm_digits {raw x : String} (h : norm_br_e164 raw = some x) :
    ∃ rest, x = ⟨'+' :: '5' :: '5' :: rest⟩ ∧
      nationalValid rest = true ∧ rest.all Char.isDigit = true := by
  have hall : (pyDigits raw.data).all Char.isDigit = true := pyDigits_all _
  unfold norm_br_e164 at h
  split at h
  · exact absurd h (by simp)
  · split at h
    · rcases phonelib_shape h with ⟨rest, hx, hrest, hval, _⟩
      refine ⟨rest, hx, hval, ?_⟩
      refine sublist_all ?_ hall
      rw [hrest]
      exact (List.dropWhile_sublist _).trans (List.drop_sublist _ _)
    · rcases phonelib_shape h with ⟨rest, hx, hrest, hval, _⟩
      refine ⟨rest, hx, hval, ?_⟩
      refine sublist_all ?_ hall
      rw [hrest]
      have hd2 : (('5' :: '5' :: (pyDigits raw.data).dropWhile (· == '0')).drop 2)
          = (pyDigits raw.data).dropWhile (· == '0') := rfl
      rw [hd2]
      exact (List.dropWhile_sublist _).trans (List.dropWhile_sublist _)

/-- Claim C9: the normalizer is idempotent — normalizing any string that is
itself an output of `norm_br_e164` returns it unchanged. -/
theorem C9_norm_br_e164_idempotent (raw x : String)
    (h : norm_br_e164 raw = some x) : norm_br_e164 x = some x := by
  rcases norm_digits h with ⟨rest, hx, hval, hdig⟩
  rcases nationalValid_head hval with ⟨a, t, hr, ha⟩
  subst hx
  have hfilter : rest.filter Char.isDigit = rest :=
    List.filter_eq_self.mpr (fun c hc => by
      rw [List.all_eq_true] at hdig; exact hdig c hc)
  have hplus : Char.isDigit '+' = false := by decide
  have hfive : Char.isDigit '5' = true := by decide
  have hpd : pyDigits (String.mk ('+' :: '5' :: '5' :: rest)).data
      = '5' :: '5' :: rest := by
    show List.filter Char.isDigit ('+' :: '5' :: '5' :: rest) = '5' :: '5' :: rest
    simp [List.filter_cons, hplus, hfive, hfilter]
  unfold norm_br_e164
  rw [hpd]
  have hne : ('5' :: '5' :: rest : List Char) ≠ [] := by simp
  rw [if_neg hne]
  have hsw : startsWith55 ('5' :: '5' :: rest) = true := rfl
  rw [if_pos hsw]
  unfold phonelib_e164
  rw [if_pos hsw]
  have hdrop : (('5' :: '5' :: rest).drop 2).dropWhile (· == '0') = rest := by
    simp only [List.drop]
    rw [hr, List.dropWhile_cons_of_neg (by simpa using ha)]
  rw [hdrop, if_pos hval]

/-- Witness for C9 at the spec's Scenario A input. -/
theorem C9_norm_br_e164_idempotent_witness :
    norm_br_e164 "+5511912345678" = some "+5511912345678" :=
  C9_norm_br_e164_idempotent "(11) 91234-5678" "+5511912345678" (by decide)

/-- Claim C10: `norm_br_e164` is total — on every input it returns either
`none` or `+` followed only by digits; and on a non-empty digit sequence not
starting with `55`, the leading zeros are stripped and `55` prepended before
the string is handed to validation. -/
theorem C10_norm_br_e164_total (s : String) :
    (norm_br_e164 s = none ∨
      ∃ l, norm_br_e164 s = some (String.mk ('+' :: l)) ∧ l.all Char.isDigit = true) ∧
    (pyDigits s.data ≠ [] → startsWith55 (pyDigits s.data) = false →
      norm_br_e164 s =
        phonelib_e164 ('5' :: '5' :: (pyDigits s.data).dropWhile (· == '0'))) := by
  constructor
  · cases hn : norm_br_e164 s with
    | none => exact Or.inl rfl
    | some x =>
      rcases norm_digits hn with ⟨rest, hx, _, hdig⟩
      refine Or.inr ⟨'5' :: '5' :: rest, ?_, ?_⟩
      · rw [hx]
      · simp only [List.all_cons, Bool.and_eq_true]
        exact ⟨by decide, by decide, hdig⟩
  · intro hne hsw
    unfold norm_br_e164
    rw [if_neg hne, if_neg (by simp [hsw])]

/-- Witness for C10: a concrete input with a trunk zero and no `55` prefix. -/
theorem C10_norm_br_e164_total_witness :
    norm_br_e164 "011912345678" =
      phonelib_e164 ('5' :: '5' :: (pyDigits "011912345678".data).dropWhile (· == '0')) :=
  (C10_norm_br_e164_total "011912345678").2 (by decide) (by decide)

/-! ## Page extractor (`collector._page_fast_and_fallback`)

The rendered page is embedded as data.  Occurrences of `PHONE_RE.findall(txt)`
are modelled by storing, for each text source of the page, the list of raw
fragments the regex would return; an `Option` is `none` when the
corresponding renderer call raises (swallowed by the source's `try/except`).
-/

/-- One result card of the rendered page.
`telHref`: the `href` of the card's `a[href^='tel:']` link, when the card has
one.  `cardText`: the regex matches of `el.inner_text()` (`none` = the
renderer call raised).  `clickOk`: whether the fallback click plus
`wait_for_selector` succeeds (`false` = `PWTimeoutError`, the loop
`continue`s).  `afterClickHref`: the `href` of the first page-level
`a[href^='tel:']` link visible after clicking this card (`none` = no link or
`PWError`).  `panelMatches`: the regex matches of the opened panel's text. -/
structure Card where
  telHref : Option String
  cardText : Option (List String)
  clickOk : Bool
  afterClickHref : Option String
  panelMatches : List String
deriving Repr, DecidableEq

/-- A rendered results page.  `navTimeout`: `page.goto` raised
`PWTimeoutError`.  `htmlMatches`: regex matches of `page.content()`.
`selectorOk`: the results container appeared within the selector timeout.
`cards`: the effective card list (after the `article` / `div.VkpGBb` locator
fallback).  `feedMatches`: regex matches of the feed's text (`none` = feed
absent or `inner_text` raised).  `bodyMatches`: regex matches of
`page.inner_text("body")` (`none` = the call raised). -/
structure PageModel where
  navTimeout : Bool
  htmlMatches : Option (List String)
  selectorOk : Bool
  cards : List Card
  feedMatches : Option (List String)
  bodyMatches : Option (List String)
deriving Repr, DecidableEq

/-- The scan loop shared by stages 0, 2 and 3: for each raw regex match,
normalize it, append it when it is fresh, and stop once `lim` numbers have
been collected (the Python loop checks `len(out) >= limite` after each
append). -/
def addMatches (lim : Nat) : List String → List String → List String
  | out, [] => out
  | out, m :: ms =>
    match norm_br_e164 m with
    | none => addMatches lim out ms
    | some tel =>
      if tel ∈ out then addMatches lim out ms
      else if lim ≤ out.length + 1 then out ++ [tel]
      else addMatches lim (out ++ [tel]) ms

/-- The per-card text scan: the Python loop `break`s after the first match
that is valid and fresh, so at most one number is added per card text. -/
def addFirstText : List String → List String → List String
  | out, [] => out
  | out, m :: ms =>
    match norm_br_e164 m with
    | none => addFirstText out ms
    | some tel => if tel ∈ out then addFirstText out ms else out ++ [tel]

/-- Stage 1, one card: try the card's `tel:` link first (the `href` minus its
4-character `tel:` prefix is normalized); when the link is missing, invalid
or a duplicate, fall through to the card-text scan. -/
def cardTextScan (out : List String) (ct : Option (List String)) : List String :=
  match ct with
  | none => out
  | some ms => addFirstText out ms

def cardTelText (out : List String) (c : Card) : List String :=
  match c.telHref with
  | some h =>
    match norm_br_e164 ⟨h.data.drop 4⟩ with
    | some tel => if tel ∈ out then cardTextScan out c.cardText else out ++ [tel]
    | none => cardTextScan out c.cardText
  | none => cardTextScan out c.cardText

/-- Stage 1, all cards: scan the cards in order, stopping at the top of the
loop once the limit is reached. -/
def cardPass (lim : Nat) : List String → List Card → List String
  | out, [] => out
  | out, c :: cs => if lim ≤ out.length then out else cardPass lim (cardTelText out c) cs

/-- Embeds `for m in PHONE_RE.findall(blob): tel = norm(m); if tel: break` — the
first fragment the normalizer accepts. -/
def firstValid (ms : List String) : Option String := ms.findSome? norm_br_e164

/-- Stage 4, one clicked card: on a successful click, prefer the page-level
`tel:` link, then the panel text; add the number only when fresh. -/
def clickStep (out : List String) (c : Card) : List String :=
  if c.clickOk then
    match
      (match c.afterClickHref with
       | some h => norm_br_e164 ⟨h.data.drop 4⟩
       | none => none) with
    | some tel => if tel ∈ out then out else out ++ [tel]
    | none =>
      match firstValid c.panelMatches with
      | some tel => if tel ∈ out then out else out ++ [tel]
      | none => out
  else out

/-- Stage 4, the click loop over the first `to_click` cards, stopping at the
top of the loop once the limit is reached. -/
def clickPass (lim : Nat) : List String → List Card → Nat → List String
  | out, _, 0 => out
  | out, [], _ + 1 => out
  | out, c :: cs, n + 1 =>
    if lim ≤ out.length then out else clickPass lim (clickStep out c) cs n

/-- Result of stage 0 (regex over the full rendered HTML). -/
def afterHtml (pm : PageModel) (limite : Nat) : List String :=
  match pm.htmlMatches with
  | none => []
  | some ms => addMatches limite [] ms

/-- Result after stage 1 (fast pass over the result cards). -/
def afterCards (pm : PageModel) (limite : Nat) : List String :=
  cardPass limite (afterHtml pm limite) pm.cards

/-- Result after stage 2 (regex over the feed container's text). -/
def afterFeed (pm : PageModel) (limite : Nat) : List String :=
  match pm.feedMatches with
  | none => afterCards pm limite
  | some ms => addMatches limite (afterCards pm limite) ms

/-- Result after stage 3 (regex over the body text). -/
def afterBody (pm : PageModel) (limite : Nat) : List String :=
  match pm.bodyMatches with
  | none => afterFeed pm limite
  | some ms => addMatches limite (afterFeed pm limite) ms

/-- Embeds `collector._page_fast_and_fallback`: collect numbers from one rendered
page through the ordered stage cascade — (goto, returning `[]` on navigation
timeout); (0) regex over the full HTML; (1b) when the results container never
appears, regex over the body as a last resort; (1) fast pass over the cards
(`tel:` link, then card text); (2) regex over the feed; (3) regex over the
body; (4) a bounded number of fallback clicks.  After stages 0–3 the function
returns as soon as `limite` numbers have been found. -/
def page_fast_and_fallback (pm : PageModel) (limite click_limit : Nat) : List String :=
  if pm.navTimeout then []
  else if limite ≤ (afterHtml pm limite).length then afterHtml pm limite
  else if pm.selectorOk = false then
    match pm.bodyMatches with
    | none => afterHtml pm limite
    | some ms => addMatches limite (afterHtml pm limite) ms
  else if limite ≤ (afterCards pm limite).length then afterCards pm limite
  else if limite ≤ (afterFeed pm limite).length then afterFeed pm limite
  else if limite ≤ (afterBody pm limite).length then afterBody pm limite
  else
    clickPass limite (afterBody pm limite) pm.cards
      (min click_limit (min pm.cards.length (limite - (afterBody pm limite).length)))

/-! ### Page-local dedup: every stage only appends fresh numbers -/

theorem nodup_snoc {l : List String} {a : String}
    (h : l.Nodup) (ha : a ∉ l) : (l ++ [a]).Nodup := by
  rw [List.nodup_append]
  refine ⟨h, List.nodup_singleton a, ?_⟩
  intro x hx hxa
  rw [List.mem_singleton] at hxa
  subst hxa
  exact ha hx

theorem addMatches_nodup (lim : Nat) (ms : List String) :
    ∀ out : List String, out.Nodup → (addMatches lim out ms).Nodup := by
  induction ms with
  | nil => intro out h; exact h
  | cons m ms ih =>
    intro out h
    unfold addMatches
    cases norm_br_e164 m with
    | none => exact ih out h
    | some tel =>
      by_cases hmem : tel ∈ out
      · simpa [hmem] using ih out h
      · simp only [hmem, if_false]
        split
        · exact nodup_snoc h hmem
        · exact ih _ (nodup_snoc h hmem)

theorem addFirstText_nodup (ms : List String) :
    ∀ out : List String, out.Nodup → (addFirstText out ms).Nodup := by
  induction ms with
  | nil => intro out h; exact h
  | cons m ms ih =>
    intro out h
    unfold addFirstText
    cases norm_br_e164 m with
    | none => exact ih out h
    | some tel =>
      by_cases hmem : tel ∈ out
      · simpa [hmem] using ih out h
      · simpa [hmem] using nodup_snoc h hmem

theorem cardTextScan_nodup (out : List String) (ct : Option (List String))
    (h : out.Nodup) : (cardTextScan out ct).Nodup := by
  cases ct with
  | none => exact h
  | some ms => exact addFirstText_nodup ms out h

theorem cardTelText_nodup (out : List String) (c : Card) (h : out.Nodup) :
    (cardTelText out c).Nodup := by
  unfold cardTelText
  split
  · split
    · split
      · exact cardTextScan_nodup out c.cardText h
      · exact nodup_snoc h (by assumption)
    · exact cardTextScan_nodup out c.cardText h
  · exact cardTextScan_nodup out c.cardText h

theorem cardPass_nodup (lim : Nat) (cs : List Card) :
    ∀ out : List String, out.Nodup → (cardPass lim out cs).Nodup := by
  induction cs with
  | nil => intro out h; exact h
  | cons c cs ih =>
    intro out h
    unfold cardPass
    split
    · exact h
    · exact ih _ (cardTelText_nodup out c h)

theorem clickStep_nodup (out : List String) (c : Card) (h : out.Nodup) :
    (clickStep out c).Nodup := by
  unfold clickStep
  split
  · split
    · split
      · exact h
      · exact nodup_snoc h (by assumption)
    · split
      · split
        · exact h
        · exact nodup_snoc h (by assumption)
      · exact h
  · exact h

theorem clickPass_nodup (lim : Nat) (n : Nat) :
    ∀ (out : List String) (cs : List Card), out.Nodup → (clickPass lim out cs n).Nodup := by
  induction n with
  | zero => intro out cs h; cases cs <;> exact h
  | succ n ih =>
    intro out cs h
    cases cs with
    | nil => exact h
    | cons c cs =>
      unfold clickPass
      split
      · exact h
      · exact ih _ cs (clickStep_nodup out c h)

theorem afterHtml_nodup (pm : PageModel) (limite : Nat) : (afterHtml pm limite).Nodup := by
  unfold afterHtml
  split
  · exact List.nodup_nil
  · exact addMatches_nodup limite _ [] List.nodup_nil

theorem afterCards_nodup (pm : PageModel) (limite : Nat) : (afterCards pm limite).Nodup :=
  cardPass_nodup limite pm.cards _ (afterHtml_nodup pm limite)

theorem afterFeed_nodup (pm : PageModel) (limite : Nat) : (afterFeed pm limite).Nodup := by
  unfold afterFeed
  split
  · exact afterCards_nodup pm limite
  · exact addMatches_nodup limite _ _ (afterCards_nodup pm limite)

theorem afterBody_nodup (pm : PageModel) (limite : Nat) : (afterBody pm limite).Nodup := by
  unfold afterBody
  split
  · exact afterFeed_nodup pm limite
  · exact addMatches_nodup limite _ _ (afterFeed_nodup pm limite)

/-! ## Locality cursors and batch collection (`collector.collect_batch`) -/

def MAX_WORKERS : Nat := 4
def MAX_PAGES_CAP : Nat := 30
def MAX_CLICKS_PER_PAGE : Nat := 4

/-- The `next_page` dict, as an association list (keys are the cities). -/
abbrev NextPage := List (String × Nat)

def npGet (m : NextPage) (c : String) : Nat :=
  ((m.find? (fun p => p.1 = c)).map Prod.snd).getD 0

def npSet (m : NextPage) (c : String) (v : Nat) : NextPage :=
  m.map (fun p => if p.1 = c then (c, v) else p)

/-- Embeds `all(next_page[x] >= MAX_PAGES_CAP for x in cities)`. -/
def allCapped (cities : List String) (np : NextPage) : Bool :=
  cities.all (fun c => MAX_PAGES_CAP ≤ npGet np c)

/-- The job-selection `while` loop of `collect_batch` (lines building `jobs`):
visit the cities round-robin through `city_idx`, skip capped cities, append
`(city, page)` jobs and advance the city's page counter, until `MAX_WORKERS`
jobs are gathered, every city is capped, or the inner break (all cities
advanced past `base` and enough jobs) fires.  The loop terminates because
every iteration either appends a job (at most `MAX_WORKERS` times) or skips a
capped city (at most once per city between appends); the fuel
`(MAX_WORKERS + 1) * (cities.length + 1)` covers every reachable iteration. -/
def select_jobs_aux (cities : List String) (base : NextPage) :
    Nat → Nat → NextPage → List (String × Nat) → List (String × Nat) × NextPage
  | 0, _, np, jobs => (jobs, np)
  | fuel + 1, cityIdx, np, jobs =>
    if jobs.length < MAX_WORKERS then
      if MAX_PAGES_CAP ≤ npGet np (cities.getD (cityIdx % cities.length) "") then
        if allCapped cities np then (jobs, np)
        else select_jobs_aux cities base fuel (cityIdx + 1) np jobs
      else
        if cities.all (fun x =>
              npGet base x <
                npGet (npSet np (cities.getD (cityIdx % cities.length) "")
                  (npGet np (cities.getD (cityIdx % cities.length) "") + 1)) x)
            && MAX_WORKERS ≤ (jobs ++ [(cities.getD (cityIdx % cities.length) "",
                npGet np (cities.getD (cityIdx % cities.length) ""))]).length then
          (jobs ++ [(cities.getD (cityIdx % cities.length) "",
              npGet np (cities.getD (cityIdx % cities.length) ""))],
           npSet np (cities.getD (cityIdx % cities.length) "")
             (npGet np (cities.getD (cityIdx % cities.length) "") + 1))
        else
          select_jobs_aux cities base fuel (cityIdx + 1)
            (npSet np (cities.getD (cityIdx % cities.length) "")
              (npGet np (cities.getD (cityIdx % cities.length) "") + 1))
            (jobs ++ [(cities.getD (cityIdx % cities.length) "",
                npGet np (cities.getD (cityIdx % cities.length) ""))])
    else (jobs, np)

def select_jobs (cities : List String) (np base : NextPage) :
    List (String × Nat) × NextPage :=
  select_jobs_aux cities base ((MAX_WORKERS + 1) * (cities.length + 1)) 0 np []

/-- The collector session state: the requested cities and the per-city
`next_page` counters (`init_state` / the dicts threaded through
`collect_batch`). -/
structure CState where
  cities : List String
  next_page : NextPage
deriving Repr, DecidableEq

/-- Embeds `collector.collect_batch`: select up to `MAX_WORKERS` `(city, page)` jobs
round-robin, fetch each selected page (the search-URL construction
`quote(f"{nicho} {city}")` with `start = page * 20` is abstracted into the
`env` oracle giving the rendered page for `(nicho, city, page)`), concatenate
the page results (thread completion order is modelled as submission order),
truncate to `limit`, and report exhaustion when every city reached the hard
page cap.  A per-future exception is modelled by an empty page result. -/
def collect_batch (env : String → String → Nat → PageModel) (nicho : String)
    (state : CState) (limit : Nat) : List String × CState × Bool :=
  match select_jobs state.cities state.next_page state.next_page with
  | (jobs, np) =>
    if jobs = [] then ([], ⟨state.cities, np⟩, true)
    else
      match (jobs.map (fun jp =>
          page_fast_and_fallback (env nicho jp.1 jp.2) limit MAX_CLICKS_PER_PAGE)).flatten with
      | results =>
        (if limit < results.length then results.take limit else results,
         ⟨state.cities, np⟩, allCapped state.cities np)

/-- The `while total < limite` loop of `iter_numbers` for one city,
instrumented with the list of `(city, page)` fetches its batches perform.
Returns `(yielded numbers, final total, fetch trace)`.  Each non-exhausted
batch advances the city's page counter by at least one, so
`MAX_PAGES_CAP + 1` fuel covers every reachable iteration. -/
def run_city (env : String → String → Nat → PageModel) (nicho : String)
    (limite rem : Nat) : Nat → Nat → CState → List String × Nat × List (String × Nat)
  | 0, total, _ => ([], total, [])
  | fuel + 1, total, state =>
    if limite ≤ total then ([], total, [])
    else
      match collect_batch env nicho state rem,
            (select_jobs state.cities state.next_page state.next_page).1 with
      | (batch, state', exhausted), jobs =>
        match batch.take (limite - total) with
        | taken =>
          if limite ≤ total + taken.length then (taken, total + taken.length, jobs)
          else if exhausted then (taken, total + taken.length, jobs)
          else
            match run_city env nicho limite rem fuel (total + taken.length) state' with
            | (nums, totalF, trace) => (taken ++ nums, totalF, jobs ++ trace)

/-- Embeds `[c.strip() for c in local.split(",") if c.strip()] or [local.strip()]`
(`init_state` and `iter_numbers` build the same city list). -/
def split_local (loc : String) : List String :=
  if ((pySplitComma loc.data []).map pyStrip).filter (fun c => c ≠ []) = []
  then [⟨pyStrip loc.data⟩]
  else (((pySplitComma loc.data []).map pyStrip).filter (fun c => c ≠ [])).map
    (fun l => (⟨l⟩ : String))

/-- The `for cidade in cities` loop of `iter_numbers`: each city gets a fresh
single-city state and is driven until the global `limite` is reached or the
city exhausts; the generator `return` (total reached `limite`) stops the
remaining cities.  Also returns the fetch trace. -/
def iter_go (env : String → String → Nat → PageModel) (nicho : String) (limite : Nat) :
    List String → Nat → List String × List (String × Nat)
  | [], _ => ([], [])
  | c :: rest, total =>
    match run_city env nicho limite (max 1 (limite - total)) (MAX_PAGES_CAP + 1) total
        ⟨[c], [(c, 0)]⟩ with
    | (nums, total', trace) =>
      if limite ≤ total' then (nums, trace)
      else
        match iter_go env nicho limite rest total' with
        | (nums', trace') => (nums ++ nums', trace ++ trace')

/-- Embeds `collector.iter_numbers` (the sequence of yielded numbers). -/
def iter_numbers (env : String → String → Nat → PageModel)
    (nicho loc : String) (limite : Nat) : List String :=
  (iter_go env nicho limite (split_local loc) 0).1

/-- The sequence of `(city, page)` fetches performed by `iter_numbers`. -/
def iter_trace (env : String → String → Nat → PageModel)
    (nicho loc : String) (limite : Nat) : List (String × Nat) :=
  (iter_go env nicho limite (split_local loc) 0).2

/-- Embeds `collector.collect_numbers`: consume `iter_numbers` up to `limite`. -/
def collect_numbers (env : String → String → Nat → PageModel)
    (nicho loc : String) (limite : Nat) : List String :=
  (iter_numbers env nicho loc limite).take limite

/-! ## Concrete page environments used to exercise the collector -/

/-- A page whose full HTML contains one regex match, and no cards. -/
def dupPage : PageModel :=
  { navTimeout := false, htmlMatches := some ["(11) 91234-5678"], selectorOk := true,
    cards := [], feedMatches := some [], bodyMatches := some [] }

/-- Every page of every city renders `dupPage`. -/
def dupEnv : String → String → Nat → PageModel := fun _ _ _ => dupPage

/-- A page whose navigation times out: the extractor returns no numbers. -/
def emptyPage : PageModel :=
  { navTimeout := true, htmlMatches := none, selectorOk := false, cards := [],
    feedMatches := none, bodyMatches := none }

/-- Every page of every city yields zero numbers. -/
def emptyEnv : String → String → Nat → PageModel := fun _ _ _ => emptyPage

/-! ## Claim C2: global deduplication -/

/-- Claim C2 counterexample: with every page containing the same phone
number, `collect_numbers` emits that CanonicalNumber at five distinct
positions of one session's sequence — the Scheduler deduplicates neither
across the pages of one batch nor across batches. -/
theorem C2_counterexample :
    collect_numbers dupEnv "pizzaria" "Campinas" 5
        = List.replicate 5 "+5511912345678" ∧
    ¬ (collect_numbers dupEnv "pizzaria" "Campinas" 5).Nodup := by decide

/-- Claim C2 as amended: deduplication is page-local only.  Within one page
fetch the extractor never returns the same CanonicalNumber twice, but
`collect_batch` / `iter_numbers` / `collect_numbers` perform no deduplication
across pages or batches, so a session's sequence may repeat a
CanonicalNumber. -/
theorem C2_page_local_dedup (pm : PageModel) (limite click_limit : Nat) :
    (page_fast_and_fallback pm limite click_limit).Nodup := by
  unfold page_fast_and_fallback
  split
  · exact List.nodup_nil
  · split
    · exact afterHtml_nodup pm limite
    · split
      · split
        · exact afterHtml_nodup pm limite
        · exact addMatches_nodup limite _ _ (afterHtml_nodup pm limite)
      · split
        · exact afterCards_nodup pm limite
        · split
          · exact afterFeed_nodup pm limite
          · split
            · exact afterBody_nodup pm limite
            · exact clickPass_nodup limite _ _ pm.cards (afterBody_nodup pm limite)

/-! ## Claim C3: exhaustion convergence -/

/-- A fresh single-city state, as built by `iter_numbers` for city `"a"`. -/
def c3state : CState := ⟨["a"], [("a", 0)]⟩

/-- One batch step of the cursor state. -/
def stepCState (env : String → String → Nat → PageModel) (nicho : String)
    (limit : Nat) (st : CState) : CState :=
  (collect_batch env nicho st limit).2.1

/-- Runs `n` batch steps of the cursor state. -/
def iterCState (env : String → String → Nat → PageModel) (nicho : String)
    (limit : Nat) : Nat → CState → CState
  | 0, st => st
  | n + 1, st => iterCState env nicho limit n (stepCState env nicho limit st)

/-- Claim C3 counterexample: against a locality that always yields zero
numbers, the first batch performs four consecutive no-progress page fetches
(`next_page` goes from 0 to 4) and the cursor is still not exhausted — the
claimed `pagesWithoutProgress` threshold of 2–3 no-progress fetches does not
exist in the code. -/
theorem C3_counterexample :
    (collect_batch emptyEnv "vet" c3state 50).1 = [] ∧
    (collect_batch emptyEnv "vet" c3state 50).2.1.next_page = [("a", 4)] ∧
    (collect_batch emptyEnv "vet" c3state 50).2.2 = false := by decide

/-- Claim C3 as amended: a locality that always returns zero new numbers is
reported exhausted only when its page counter reaches the hard cap of 30
pages — after the 8th batch (30 page fetches), not within a no-progress
threshold: through 7 batches (28 no-progress fetches) the cursor is still
active, and the whole run yields no numbers. -/
theorem C3_amended :
    (collect_batch emptyEnv "vet" (iterCState emptyEnv "vet" 50 6 c3state) 50).2.2
        = false ∧
    (iterCState emptyEnv "vet" 50 7 c3state).next_page = [("a", 28)] ∧
    (collect_batch emptyEnv "vet" (iterCState emptyEnv "vet" 50 7 c3state) 50).2.2
        = true ∧
    (collect_batch emptyEnv "vet" (iterCState emptyEnv "vet" 50 7 c3state) 50).2.1.next_page
        = [("a", 30)] ∧
    collect_numbers emptyEnv "vet" "a" 50 = [] := by decide

/-! ## Claim C4: extraction cascade order -/

/-- A page whose HTML regex scan finds `(11) 91234-5678` while its single
result card carries a structured `tel:` link to a different number. -/
def htmlFirstPage : PageModel :=
  { navTimeout := false,
    htmlMatches := some ["(11) 91234-5678"],
    selectorOk := true,
    cards := [⟨some "tel:+5511999998888", some [], false, none, []⟩],
    feedMatches := some [], bodyMatches := some [] }

/-- Claim C4 counterexample: structured `tel:` links are not tried first.
On `htmlFirstPage` with limit 1 the extractor returns the number found by
the full-HTML regex scan (stage 0), not the card's structured-link number,
although that link is present and normalizes fine. -/
theorem C4_counterexample :
    page_fast_and_fallback htmlFirstPage 1 4 = ["+5511912345678"] ∧
    norm_br_e164 ⟨("tel:+5511999998888" : String).data.drop 4⟩
        = some "+5511999998888" ∧
    ("+5511912345678" : String) ≠ "+5511999998888" := by decide

/-- A page with three structured-link cards; the regex scans over the HTML,
feed and body only hit the `tel:` href fragments, which the normalizer
rejects (11-digit substrings of the 13-digit E.164 numbers). -/
def telCardsPage : PageModel :=
  { navTimeout := false,
    htmlMatches := some ["55119999900", "55119999900", "55119999900"],
    selectorOk := true,
    cards := [⟨some "tel:+5511999990001", some [], false, none, []⟩,
              ⟨some "tel:+5511999990002", some [], false, none, []⟩,
              ⟨some "tel:+5511999990003", some [], false, none, []⟩],
    feedMatches := some [], bodyMatches := some [] }

/-- Claim C4 as amended: the cascade order is full-HTML regex scan first,
then the per-card pass (structured `tel:` link, then card text, in card
order), then feed and body scans, then the interactive disclosure fallback;
it stops as soon as the limit is reached.  On a page with 3 structured-link
numbers (none extractable from the page text) and limit 2, it returns
exactly the first 2 in card order, and the result is already complete after
the card pass, so the disclosure fallback is never invoked. -/
theorem C4_amended :
    page_fast_and_fallback telCardsPage 2 4
        = ["+5511999990001", "+5511999990002"] ∧
    page_fast_and_fallback telCardsPage 2 4 = afterCards telCardsPage 2 := by decide

/-! ## Claim C7: round-robin across localities -/

/-- Claim C7 counterexample: with two requested localities `"a, b"`, the
session's page fetches do not alternate: all 30 of locality `a`'s pages are
fetched (to its hard cap) before the first page of locality `b` — the second
fetch of the session is `(a, 1)`, not `(b, 0)`. -/
theorem C7_counterexample :
    iter_trace emptyEnv "loja" "a, b" 5
        = (List.range 30).map (fun i => ("a", i))
          ++ (List.range 30).map (fun i => ("b", i)) ∧
    (iter_trace emptyEnv "loja" "a, b" 5).getD 1 ("", 0) = ("a", 1) := by decide

/-- Claim C7 as amended: the round-robin job selection exists only inside
`collect_batch` for the cities of its own state (a fresh two-city state
yields the alternating jobs `(a,0), (b,0), (a,1), (b,1)`), but
`iter_numbers` gives every requested locality its own single-city state and
runs them sequentially, consuming one locality to its cap or the global
limit before starting the next. -/
theorem C7_amended :
    (select_jobs ["a", "b"] [("a", 0), ("b", 0)] [("a", 0), ("b", 0)]).1
        = [("a", 0), ("b", 0), ("a", 1), ("b", 1)] ∧
    iter_trace emptyEnv "loja" "a, b" 5
        = (List.range 30).map (fun i => ("a", i))
          ++ (List.range 30).map (fun i => ("b", i)) := by decide

/-! ## WhatsApp verification client (`server._verify_batch` / `server.verify_whatsapp`)

The remote service is an oracle: for a chunk index and an attempt number it
returns `none` (the HTTP call / `raise_for_status` / body parsing raised,
caught by the retry loop's `except`) or the parsed JSON response.  The
bounded-concurrency `asyncio` dispatch writes into shared accumulators whose
merge is order-insensitive (set union and counter sums), so it is modelled
as a sequential fold in chunk order; the Python `set` is modelled as an
insertion-ordered duplicate-free list. -/

/-- A Python value as inspected by `server._truthy` (other types map to
`vNone`, which is falsy there). -/
inductive PyVal where
  | vNone
  | vBool (b : Bool)
  | vInt (n : Int)
  | vStr (s : String)
deriving Repr, DecidableEq

/-- Embeds `server._truthy`. -/
def truthy : PyVal → Bool
  | .vNone => false
  | .vBool b => b
  | .vInt n => n != 0
  | .vStr s => decide ((⟨pyLower (pyStrip s.data)⟩ : String) ∈ ["true", "1", "yes", "y", "sim"])

/-- One row of the verification response.  `exists_flag` embeds the row's
`exists` field (`exists` is reserved in Lean). -/
structure VerifyRow where
  query : Option String
  number : Option String
  phone : Option String
  isInWhatsapp : PyVal
  is_whatsapp : PyVal
  exists_flag : PyVal
  valid : PyVal
  jid : Option String
  verifiedName : Option String
deriving Repr, DecidableEq

/-- Embeds `str(item.get("query") or item.get("number") or item.get("phone") or "")`:
the first present, non-empty string of the chain. -/
def firstTruthyStr : List (Option String) → String
  | [] => ""
  | some s :: rest => if s = "" then firstTruthyStr rest else s
  | none :: rest => firstTruthyStr rest

def rowQuery (r : VerifyRow) : String :=
  firstTruthyStr [r.query, r.number, r.phone]

/-- The reachability disjunction of `server._verify_batch` (lines 111–118). -/
def rowIsWa (r : VerifyRow) : Bool :=
  truthy r.isInWhatsapp || truthy r.is_whatsapp || truthy r.exists_flag
    || truthy r.valid
    || (match r.jid with | some s => s != "" | none => false)
    || decide (⟨pyStrip (r.verifiedName.getD "").data⟩ ≠ ("" : String))

/-- The JSON shapes accepted by the tolerant parser (lines 100–106): a
top-level list; a dict whose `data` or `numbers` field is the row list; a
dict whose `data`/`numbers` field is itself a dict holding `numbers`; and
anything else, which yields no rows. -/
inductive VerifyResp where
  | rlist (rows : List VerifyRow)
  | rdictRows (rows : List VerifyRow)
  | rdictNested (rows : List VerifyRow)
  | rother
deriving Repr, DecidableEq

def respRows : VerifyResp → List VerifyRow
  | .rlist rows => rows
  | .rdictRows rows => rows
  | .rdictNested rows => rows
  | .rother => []

/-- Python `set.add` on the insertion-ordered list model. -/
def setInsert (l : List String) (x : String) : List String :=
  if x ∈ l then l else l ++ [x]

/-- The row loop of `_verify_batch`: a row whose reachability disjunction
holds and whose echoed query has digits contributes `+digits` to the
confirmed set. -/
def processRows (rows : List VerifyRow) : List String :=
  rows.foldl (fun acc r =>
    if rowIsWa r ∧ digitsStr (rowQuery r) ≠ "" then
      setInsert acc ("+" ++ digitsStr (rowQuery r))
    else acc) []

/-- The retry loop of `_verify_batch` (`while attempt <= UAZAPI_RETRIES`):
returns the parsed rows of the first successful attempt together with the
number of failed attempts before it, or `none` with all attempts counted
failed. -/
def vbAttempts (oracle : Nat → Option VerifyResp) :
    Nat → Nat → Nat → Option (List VerifyRow) × Nat
  | 0, _, failCnt => (none, failCnt)
  | k + 1, i, failCnt =>
    match oracle i with
    | some resp => (some (respRows resp), failCnt)
    | none => vbAttempts oracle k (i + 1) (failCnt + 1)

/-- Embeds `server._verify_batch`, as `(confirmed set, ok, fail)`: `ok` is 1 when
some attempt succeeded, `fail` counts failed attempts; an empty chunk is
returned immediately with zero counters. -/
def verify_batch (oracle : Nat → Option VerifyResp) (retries : Nat)
    (digits : List String) : List String × Nat × Nat :=
  if digits = [] then ([], 0, 0)
  else
    match vbAttempts oracle (retries + 1) 0 0 with
    | (some rows, fail) => (processRows rows, 1, fail)
    | (none, fail) => ([], 0, fail)

/-- Embeds `n.startswith("+")`. -/
def pyStartsWithPlus (s : String) : Bool :=
  match s.data with
  | '+' :: _ => true
  | _ => false

/-- Python dict assignment `d[k] = v` on an association list (last write
wins, key positions stable). -/
def upsert (m : List (String × String)) (k v : String) : List (String × String) :=
  if m.any (fun p => p.1 = k) then m.map (fun p => if p.1 = k then (k, v) else p)
  else m ++ [(k, v)]

def lookupAssoc (m : List (String × String)) (k : String) : Option String :=
  (m.find? (fun p => p.1 = k)).map Prod.snd

/-- The digit-mapping loop of `verify_whatsapp` (lines 144–151): the digit
strings to send (duplicates kept) and the digits → E.164 dictionary. -/
def build_digit_map (numbers : List String) : List String × List (String × String) :=
  numbers.foldl (fun acc nnum =>
    if digitsStr nnum = "" then acc
    else (acc.1 ++ [digitsStr nnum],
          upsert acc.2 (digitsStr nnum)
            (if pyStartsWithPlus nnum then nnum else "+" ++ digitsStr nnum)))
    ([], [])

/-- Embeds `server._split_chunks`: slices of size `max 1 size`.  Each step drops at
least one element, so `l.length` fuel covers the recursion. -/
def split_chunks_aux (size : Nat) : Nat → List String → List (List String)
  | 0, _ => []
  | _, [] => []
  | fuel + 1, x :: xs =>
    (x :: xs).take (max 1 size) :: split_chunks_aux size fuel ((x :: xs).drop (max 1 size))

def split_chunks (l : List String) (size : Nat) : List (List String) :=
  split_chunks_aux size l.length l

/-- Aggregate metrics of a verification pass (`meta_all`). -/
structure VerifyMeta where
  batches : Nat
  sent : Nat
  ok : Nat
  fail : Nat
deriving Repr, DecidableEq

/-- The worker loop over the chunks: run `_verify_batch` per chunk, map each
confirmed digit string back to its original E.164 form through the digit
dictionary, and accumulate the confirmed set and the `ok`/`fail` counters. -/
def vw_fold (oracle : Nat → Nat → Option VerifyResp) (retries : Nat)
    (emap : List (String × String)) :
    List (List String) → Nat → List String × Nat × Nat → List String × Nat × Nat
  | [], _, acc => acc
  | chunk :: rest, idx, acc =>
    match verify_batch (oracle idx) retries chunk with
    | (waSet, bOk, bFail) =>
      vw_fold oracle retries emap rest (idx + 1)
        (waSet.foldl (fun wa w =>
          match lookupAssoc emap (digitsStr w) with
          | some e => setInsert wa e
          | none => wa) acc.1,
         acc.2.1 + bOk, acc.2.2 + bFail)

/-- Embeds `server.verify_whatsapp`: empty input or missing endpoint URL or missing
instance token short-circuits to an empty confirmed set with zero metrics;
otherwise the numbers are mapped to digit strings, chunked, verified
chunk-wise and mapped back. -/
def verify_whatsapp (oracle : Nat → Nat → Option VerifyResp) (url token : String)
    (batchSize retries : Nat) (numbers_e164 : List String) :
    List String × VerifyMeta :=
  if numbers_e164 = [] ∨ url = "" ∨ token = "" then ([], ⟨0, 0, 0, 0⟩)
  else
    match build_digit_map numbers_e164 with
    | (digits_list, emap) =>
      match vw_fold oracle retries emap (split_chunks digits_list batchSize) 0 ([], 0, 0) with
      | (waAll, ok, fail) =>
        (waAll, ⟨(split_chunks digits_list batchSize).length, digits_list.length, ok, fail⟩)

/-! ## The `/leads` endpoint (`server.leads`) -/

/-- The JSON object returned by `/leads` (the `items` field keeps
`(phone, has_whatsapp)` pairs). -/
structure LeadsResponse where
  count : Nat
  items : List (String × Option Bool)
  searched : Nat
  wa_count : Nat
  non_wa_count : Nat
  exhausted : Bool
deriving Repr, DecidableEq

/-- The `verify == 1` branch of `server.leads` (lines 207–221), given the
collector's candidates/exhaustion and the confirmed set from
`verify_whatsapp`: keep the confirmed candidates (in candidate order,
truncated to `n`), count everything else — including numbers whose chunks
failed — in `non_wa_count = searched - wa_count`. -/
def leads_verify_response (candidates : List String) (exhausted_all : Bool)
    (waSet : List String) (n : Nat) : LeadsResponse :=
  { count := ((candidates.filter (fun p => p ∈ waSet)).take n).length
    items := ((candidates.filter (fun p => p ∈ waSet)).take n).map (fun p => (p, some true))
    searched := candidates.length
    wa_count := ((candidates.filter (fun p => p ∈ waSet)).take n).length
    non_wa_count := candidates.length - ((candidates.filter (fun p => p ∈ waSet)).take n).length
    exhausted := exhausted_all && decide (((candidates.filter (fun p => p ∈ waSet)).take n).length < n) }

/-- The `verify == 0` branch of `server.leads` (lines 224–232). -/
def leads_plain_response (candidates : List String) (exhausted_all : Bool)
    (n : Nat) : LeadsResponse :=
  { count := (candidates.take n).length
    items := (candidates.take n).map (fun p => (p, none))
    searched := candidates.length
    wa_count := 0
    non_wa_count := candidates.length
    exhausted := exhausted_all && decide ((candidates.take n).length < n) }

/-- The parameters `collector.collect_numbers` accepts
(`def collect_numbers(nicho, local, limite=50)`). -/
def collect_numbers_params : List String := ["nicho", "local", "limite"]

/-- Python call binding: every keyword argument must name a parameter not
already bound positionally, else the call raises `TypeError`. -/
def python_call_ok (params : List String) (npos : Nat) (kwargs : List String) : Bool :=
  decide (npos ≤ params.length) && kwargs.all (fun k => k ∈ params.drop npos)

/-- Embeds `server.leads`: the `try` block invokes
`collect_numbers(nicho, local, n, overscan_mult=OVERSCAN_MULT)` — three
positional arguments plus the keyword `overscan_mult` — and unpacks the
result into `(candidates, exhausted_all)`.  When the call binds, the
endpoint would build the verify/plain response from the collector result
(parametrized here, since the call never reaches the collector); when it
does not bind, the raised `TypeError` is caught by `except Exception` and
surfaced as HTTP 500 `collector_error: TypeError`.  (`server.leads_stream`,
line 249, performs the identical call inside its generator and yields an
`error` event instead.) -/
def leads_endpoint (collectResult : List String × Bool) (n verify : Nat)
    (waSet : List String) : Except (Nat × String) LeadsResponse :=
  if python_call_ok collect_numbers_params 3 ["overscan_mult"] then
    Except.ok (if verify = 1 then
      leads_verify_response collectResult.1 collectResult.2 waSet n
    else leads_plain_response collectResult.1 collectResult.2 n)
  else Except.error (500, "collector_error: TypeError")

/-! ## Claim C1: error propagation of the endpoints -/

/-- Claim C1, settled against the code as it stands: every request to
`/leads` produces the top-level error response, regardless of the collector
result and of any failure being locality- or chunk-scoped, because the
endpoint's call to `collect_numbers` passes the keyword `overscan_mult`
which `collector.collect_numbers` does not accept — the `TypeError` is
caught and surfaced as HTTP 500.  (The spec's propagation policy matches the
interface of `collector.collect_numbers_info`, which the server never
calls.) -/
theorem C1_leads_always_type_error (collectResult : List String × Bool)
    (n verify : Nat) (waSet : List String) :
    leads_endpoint collectResult n verify waSet
      = Except.error (500, "collector_error: TypeError") := rfl

/-! ## Claim C5: verification partition reported by the endpoint -/

/-- Candidates of the C5 scenario. -/
def c5cands : List String := ["+5511912345678", "+5511999998888"]

/-- Claim C5 counterexample: the single chunk exhausts its retries
(`ok = 0`, three failed attempts), so by the claim both numbers are
"unknown" and must not be counted as rejected — yet the endpoint reports
`non_wa_count = 2`: the numbers of the failed chunk are counted in the
rejected (non-WhatsApp) count. -/
theorem C5_counterexample :
    (verify_whatsapp (fun _ _ => none) "https://x/chat/check" "tok" 50 2 c5cands).2
        = ⟨1, 2, 0, 3⟩ ∧
    (leads_verify_response c5cands true
        (verify_whatsapp (fun _ _ => none) "https://x/chat/check" "tok" 50 2 c5cands).1
        2).wa_count = 0 ∧
    (leads_verify_response c5cands true
        (verify_whatsapp (fun _ _ => none) "https://x/chat/check" "tok" 50 2 c5cands).1
        2).non_wa_count = 2 := by decide

/-- Claim C5 as amended: the endpoint classifies every input number into
exactly two reported classes, confirmed (`wa_count`, the confirmed
candidates in candidate order truncated to `n`) and non-confirmed
(`non_wa_count = searched - wa_count`, which includes the numbers of chunks
that exhausted their retries); the two classes partition the input
numerically (`wa_count + non_wa_count = searched`), and no separate
"unknown" class exists. -/
theorem C5_two_way_partition (candidates : List String) (exhausted_all : Bool)
    (waSet : List String) (n : Nat) :
    (leads_verify_response candidates exhausted_all waSet n).wa_count
        + (leads_verify_response candidates exhausted_all waSet n).non_wa_count
      = (leads_verify_response candidates exhausted_all waSet n).searched ∧
    (leads_verify_response candidates exhausted_all waSet n).non_wa_count
      = candidates.length
        - ((candidates.filter (fun p => p ∈ waSet)).take n).length := by
  have h1 : ((candidates.filter (fun p => p ∈ waSet)).take n).length
      = min n (candidates.filter (fun p => p ∈ waSet)).length :=
    List.length_take _ _
  have h2 : (candidates.filter (fun p => p ∈ waSet)).length ≤ candidates.length :=
    List.length_filter_le _ _
  have hle : ((candidates.filter (fun p => p ∈ waSet)).take n).length
      ≤ candidates.length := by
    rw [h1]
    exact le_trans (Nat.min_le_right _ _) h2
  constructor
  · show ((candidates.filter (fun p => p ∈ waSet)).take n).length
        + (candidates.length - ((candidates.filter (fun p => p ∈ waSet)).take n).length)
        = candidates.length
    exact Nat.add_sub_cancel' hle
  · rfl

/-! ## Claim C6: chunked verification metrics -/

/-- The 120 candidate numbers of the spec's Scenario D (`verify_whatsapp`
never validates the digit payload, so short distinct payloads exercise the
same paths at a fraction of the kernel-evaluation cost). -/
def c6nums : List String :=
  (List.range 120).map (fun i => "+" ++ toString (1000 + i))

/-- The digit chunks `verify_whatsapp` sends (size 50: 50 + 50 + 20). -/
def c6chunks : List (List String) := split_chunks (c6nums.map digitsStr) 50

/-- A response row echoing `d` and flagging it reachable. -/
def mkEcho (d : String) : VerifyRow :=
  ⟨some d, none, none, .vBool true, .vNone, .vNone, .vNone, none, none⟩

/-- Chunk 1 (the second of the three) fails every attempt; chunks 0 and 2
succeed, echoing their own numbers as reachable. -/
def c6oracle : Nat → Nat → Option VerifyResp := fun i _ =>
  if i = 1 then none else some (VerifyResp.rlist ((c6chunks.getD i []).map mkEcho))

set_option maxRecDepth 100000 in
/-- Claim C6 counterexample: with the default retry count 2, the reported
failure metric of the run is not 1 — the one chunk that fails all of its
retries contributes one failed attempt per retry (3 in total, see the
amended theorem), because the metric counts attempts, not failed chunks. -/
theorem C6_counterexample :
    (verify_whatsapp c6oracle "https://x/chat/check" "tok" 50 2 c6nums).2.fail ≠ 1 := by
  decide

set_option maxRecDepth 100000 in
set_option maxHeartbeats 2000000 in
/-- Claim C6 as amended: the confirmed set contains exactly the numbers
echoed by the two succeeding chunks (chunks 0 and 2 — none from the failed
chunk), and the metrics are `batches = 3`, `sent = 120`, `ok = 2` succeeded
chunks, and `fail = 3` failed attempts (`UAZAPI_RETRIES + 1` for the one
failed chunk), not a count of failed chunks. -/
theorem C6_amended :
    verify_whatsapp c6oracle "https://x/chat/check" "tok" 50 2 c6nums
        = (c6nums.take 50 ++ c6nums.drop 100, ⟨3, 120, 2, 3⟩) := by
  decide

/-! ## Claim C8: graceful degradation of `verify_whatsapp` -/

theorem vbAttempts_allfail {oracle : Nat → Option VerifyResp}
    (h : ∀ i, oracle i = none) :
    ∀ k i f, vbAttempts oracle k i f = (none, f + k) := by
  intro k
  induction k with
  | zero => intro i f; rfl
  | succ k ih =>
    intro i f
    unfold vbAttempts
    rw [h i]
    show vbAttempts oracle k (i + 1) (f + 1) = (none, f + (k + 1))
    have harith : f + 1 + k = f + (k + 1) := by omega
    rw [ih (i + 1) (f + 1), harith]

theorem verify_batch_allfail {oracle : Nat → Option VerifyResp}
    (retries : Nat) (digits : List String) (h : ∀ i, oracle i = none) :
    (verify_batch oracle retries digits).1 = [] := by
  unfold verify_batch
  split
  · rfl
  · rw [vbAttempts_allfail h (retries + 1) 0 0]

theorem vw_fold_allfail {oracle : Nat → Nat → Option VerifyResp}
    (retries : Nat) (emap : List (String × String))
    (h : ∀ i a, oracle i a = none) :
    ∀ (chunks : List (List String)) (idx ok fail : Nat),
      (vw_fold oracle retries emap chunks idx ([], ok, fail)).1 = [] := by
  intro chunks
  induction chunks with
  | nil => intro idx ok fail; rfl
  | cons chunk rest ih =>
    intro idx ok fail
    unfold vw_fold
    rcases hv : verify_batch (oracle idx) retries chunk with ⟨waSet, bOk, bFail⟩
    have hw : waSet = [] := by
      have hz := verify_batch_allfail retries chunk (h idx)
      rw [hv] at hz
      exact hz
    subst hw
    exact ih (idx + 1) (ok + bOk) (fail + bFail)

/-- Claim C8: `verify_whatsapp` never fails the request — with no endpoint
URL configured, or no instance token configured, it returns the empty
confirmed set with zero metrics; and when the remote service is entirely
unreachable (every attempt of every chunk fails), the confirmed set is
empty, so every number is treated as unconfirmed. -/
theorem C8_verify_whatsapp_degrades (oracle : Nat → Nat → Option VerifyResp)
    (url token : String) (batchSize retries : Nat) (numbers : List String) :
    verify_whatsapp oracle "" token batchSize retries numbers = ([], ⟨0, 0, 0, 0⟩) ∧
    verify_whatsapp oracle url "" batchSize retries numbers = ([], ⟨0, 0, 0, 0⟩) ∧
    ((∀ i a, oracle i a = none) →
      (verify_whatsapp oracle url token batchSize retries numbers).1 = []) := by
  refine ⟨?_, ?_, ?_⟩
  · unfold verify_whatsapp
    rw [if_pos (Or.inr (Or.inl rfl))]
  · unfold verify_whatsapp
    rw [if_pos (Or.inr (Or.inr rfl))]
  · intro h
    unfold verify_whatsapp
    split
    · rfl
    · rcases hbd : build_digit_map numbers with ⟨digits_list, emap⟩
      show (match vw_fold oracle retries emap (split_chunks digits_list batchSize)
              0 ([], 0, 0) with
            | (waAll, ok, fail) =>
              (waAll, ({ batches := (split_chunks digits_list batchSize).length,
                         sent := digits_list.length, ok := ok, fail := fail }
                : VerifyMeta))).1 = []
      rcases hfold : vw_fold oracle retries emap (split_chunks digits_list batchSize)
          0 ([], 0, 0) with ⟨waAll, ok, fail⟩
      have hz := vw_fold_allfail retries emap h (split_chunks digits_list batchSize) 0 0 0
      rw [hfold] at hz
      exact hz

/-- Witness for C8 at a concrete unreachable service. -/
theorem C8_verify_whatsapp_degrades_witness :
    (verify_whatsapp (fun _ _ => none) "https://x/chat/check" "tok" 50 2
        ["+5511912345678"]).1 = [] :=
  (C8_verify_whatsapp_degrades (fun _ _ => none) "https://x/chat/check" "tok" 50 2
    ["+5511912345678"]).2.2 (fun _ _ => rfl)

end Leads
